import Mathlib

/-
Verification of the data-aggregation pipeline of the DCA journey dashboard.

The development shallowly embeds the TypeScript source:
  * `services/dataService.ts` (parseCsv, processData, fetchAllDcaData's pure
    per-asset bundle construction, the THB/USD rate derivation), and
  * `App.tsx` (conversionRate, currentLivePrice, livePricePerGram,
    filteredChartData, liveSummary) and the transaction-history row display.

JavaScript numbers are modelled by `ℚ`; a value that would be `NaN` (a failed
`parseFloat`) is modelled by `Option ℚ` being `none`.  A JS `Date` object is
modelled by `JsDate`, recording the raw string and whether it denotes a valid
timestamp; note that in JS a `Date` object is truthy even when it is an
Invalid Date, which the embedding reflects in `jsDateTruthy`.
`toFixed(2)` followed by `parseFloat` is modelled by `round2` (round to
nearest with ties towards positive infinity, as specified for `toFixed`).
-/

namespace Dca

inductive AssetType where
  | BTC
  | GOLD
deriving DecidableEq

inductive Currency where
  | THB
  | USD
deriving DecidableEq

inductive TimeRange where
  | W
  | M
  | Y
deriving DecidableEq

/-- Model of a JS `Date` object: the raw input string and whether it denotes a
valid timestamp (`valid := false` models an Invalid Date). -/
structure JsDate where
  raw : String
  valid : Bool
deriving DecidableEq

/-- `RawTransaction` from `types.ts`. -/
structure RawTransaction where
  date : JsDate
  invested : ℚ
  assetPrice : ℚ
  assetPurchased : ℚ
deriving DecidableEq

/-- `ChartDataPoint` from `types.ts` (the `cumulativeAmount` field is always
set by `processData`, so it is modelled as total). -/
structure ChartDataPoint where
  date : String
  portValue : ℚ
  assetValue : ℚ
  cumulativeAmount : ℚ
deriving DecidableEq

/-- `SummaryData` from `types.ts`. -/
structure SummaryData where
  profitPercentage : ℚ
  totalCapital : ℚ
  entryPrice : ℚ
  startDate : JsDate
  portValue : ℚ
  lastUpdated : JsDate
  totalAmount : ℚ
deriving DecidableEq

/-- `DcaBundle` from `types.ts`; the optional `error` field is `none` when the
TypeScript object omits it. -/
structure DcaBundle where
  chartData : List ChartDataPoint
  summaryData : Option SummaryData
  rawData : List RawTransaction
  error : Option String
deriving DecidableEq

/-- `PriceInfo` from `types.ts` (the optional `isMock` flag plays no role in
the claims and is omitted). -/
structure PriceInfo where
  price : ℚ
  change24h : ℚ
  change24hPercentage : ℚ
deriving DecidableEq

/-- `CurrencyPrices` from `types.ts`. -/
structure CurrencyPrices where
  thb : PriceInfo
  usd : PriceInfo
deriving DecidableEq

/-- A data row after the `.map` of `parseCsv` and before the `.filter`:
each numeric field is `none` exactly when `parseFloat` returned `NaN`. -/
structure ParsedRow where
  date : JsDate
  invested : Option ℚ
  assetPrice : Option ℚ
  assetPurchased : Option ℚ
deriving DecidableEq

/- ----------------------------------------------------------------
   JS string / number primitives, modelled on lists of characters.
   ---------------------------------------------------------------- -/

/-- Whitespace characters removed by `String.prototype.trim`. -/
def isWS (c : Char) : Bool :=
  c == ' ' || c == '\t' || c == '\n' || c == '\r'

/-- `String.prototype.trim`: drop whitespace from both ends. -/
def trimChars (l : List Char) : List Char :=
  ((l.dropWhile isWS).reverse.dropWhile isWS).reverse

def splitOnCharAux (sep : Char) : List Char → List Char → List (List Char)
  | [], acc => [acc.reverse]
  | c :: cs, acc =>
    if c == sep then acc.reverse :: splitOnCharAux sep cs []
    else splitOnCharAux sep cs (c :: acc)

/-- `String.prototype.split` on a single separator character (the source's
`split(/\r\n|\n/)` and `split(',')`; only `\n` line endings are modelled). -/
def splitOnChar (sep : Char) (l : List Char) : List (List Char) :=
  splitOnCharAux sep l []

/-- Greedily consume decimal digits, returning the accumulated value, the
number of digits consumed, and the rest of the input. -/
def takeDigits : ℕ → ℕ → List Char → ℕ × ℕ × List Char
  | acc, cnt, [] => (acc, cnt, [])
  | acc, cnt, c :: cs =>
    if c.isDigit then takeDigits (10 * acc + (c.toNat - 48)) (cnt + 1) cs
    else (acc, cnt, c :: cs)

def applyExponent (m : ℚ) (r : List Char) : ℚ :=
  let se : ℤ × List Char :=
    match r with
    | '-' :: rr => (-1, rr)
    | '+' :: rr => (1, rr)
    | _ => (1, r)
  let d := takeDigits 0 0 se.2
  if d.2.1 = 0 then m else m * (10 : ℚ) ^ (se.1 * (d.1 : ℤ))

/-- JS `parseFloat`: parse the longest numeric prefix (optional sign, digits,
optional fraction, optional exponent); `none` models the `NaN` result when no
numeric prefix exists.  (The `Infinity` literal is not modelled.) -/
def parseFloatChars (l : List Char) : Option ℚ :=
  let sl : ℚ × List Char :=
    match l with
    | '-' :: r => (-1, r)
    | '+' :: r => (1, r)
    | _ => (1, l)
  let ipart := takeDigits 0 0 sl.2
  let fstate : ℕ × ℕ × List Char :=
    match ipart.2.2 with
    | '.' :: r => takeDigits 0 0 r
    | _ => (0, 0, ipart.2.2)
  if ipart.2.1 = 0 ∧ fstate.2.1 = 0 then none
  else
    let mantissa : ℚ := sl.1 * ((ipart.1 : ℚ) + (fstate.1 : ℚ) / (10 : ℚ) ^ fstate.2.1)
    match fstate.2.2 with
    | 'e' :: r => some (applyExponent mantissa r)
    | 'E' :: r => some (applyExponent mantissa r)
    | _ => some mantissa

/-- Validity of `new Date(s)` restricted to ISO `YYYY-MM-DD` inputs: any
other shape yields an Invalid Date (`valid := false`). -/
def isoDateValid (l : List Char) : Bool :=
  match l with
  | [y1, y2, y3, y4, h1, m1, m2, h2, d1, d2] =>
    y1.isDigit && y2.isDigit && y3.isDigit && y4.isDigit &&
    h1 == '-' && h2 == '-' &&
    m1.isDigit && m2.isDigit && d1.isDigit && d2.isDigit &&
    decide (1 ≤ 10 * (m1.toNat - 48) + (m2.toNat - 48)) &&
    decide (10 * (m1.toNat - 48) + (m2.toNat - 48) ≤ 12) &&
    decide (1 ≤ 10 * (d1.toNat - 48) + (d2.toNat - 48)) &&
    decide (10 * (d1.toNat - 48) + (d2.toNat - 48) ≤ 31)
  | _ => false

/-- `new Date(values[i])`; a missing cell (`undefined`) gives an Invalid
Date. -/
def parseDate (s : Option (List Char)) : JsDate :=
  match s with
  | none => { raw := "", valid := false }
  | some l => { raw := { data := l }, valid := isoDateValid l }

/-- `parseFloat(values[i])`; `parseFloat(undefined)` is `NaN`. -/
def jsParseFloat (s : Option (List Char)) : Option ℚ :=
  match s with
  | none => none
  | some l => parseFloatChars l

/-- A JS `Date` object is truthy regardless of validity: even an Invalid Date
is an object, hence truthy.  This models the `d.date &&` conjunct of the
filter in `parseCsv`. -/
def jsDateTruthy (_ : JsDate) : Bool := true

/-- `Array.prototype.indexOf`: first index of `x`, `-1` when absent. -/
def jsIndexOf (l : List (List Char)) (x : List Char) : Int :=
  match l.findIdx? (fun y => y == x) with
  | some i => (i : Int)
  | none => -1

/-- `values[i]` for an `Int` index: `undefined` (`none`) when out of range. -/
def getVal (values : List (List Char)) (i : Int) : Option (List Char) :=
  if i < 0 then none else values[i.toNat]?

/-- `parseFloat(x.toFixed(2))`: round to two decimal places.  `toFixed`
rounds to the nearest hundredth choosing the larger candidate on ties, which
is exactly Mathlib's `round` (ties towards positive infinity). -/
def round2 (q : ℚ) : ℚ := ((round (q * 100) : ℤ) : ℚ) / 100

/- ----------------------------------------------------------------
   parseCsv (services/dataService.ts)
   ---------------------------------------------------------------- -/

/-- The per-asset header names of `COLUMN_MAP`. -/
structure AssetColumns where
  date : String
  invested : String
  price : String
  purchased : String

def COLUMN_MAP : AssetType → AssetColumns
  | .BTC =>
    { date := "Date"
      invested := "Invested (THB)"
      price := "BTC Price (THB)"
      purchased := "BTC Purchased" }
  | .GOLD =>
    { date := "Gold Date"
      invested := "Invested Gold (THB)"
      price := "Gold Price (THB)"
      purchased := "Gold Purchased (g)" }

def assetName : AssetType → String
  | .BTC => "BTC"
  | .GOLD => "GOLD"

/-- `csvText.trim().split(/\r\n|\n/)`. -/
def csvLines (csvText : String) : List (List Char) :=
  splitOnChar '\n' (trimChars csvText.data)

/-- `line.split(',').map(v => v.trim())`. -/
def splitCommaTrim (l : List Char) : List (List Char) :=
  (splitOnChar ',' l).map trimChars

/-- `lines[0].split(',').map(h => h.trim())`. -/
def headerCells (csvText : String) : List (List Char) :=
  splitCommaTrim ((csvLines csvText).headD [])

/-- `header.indexOf(name)`. -/
def colIndex (csvText : String) (name : String) : Int :=
  jsIndexOf (headerCells csvText) name.data

/-- `[dateIndex, investedIndex, priceIndex, purchasedIndex].includes(-1)`. -/
def missingColumns (csvText : String) (asset : AssetType) : Bool :=
  colIndex csvText (COLUMN_MAP asset).date == -1 ||
  colIndex csvText (COLUMN_MAP asset).invested == -1 ||
  colIndex csvText (COLUMN_MAP asset).price == -1 ||
  colIndex csvText (COLUMN_MAP asset).purchased == -1

def emptyCsvMsg : String := "CSV file is empty or has only a header."

/-- The missing-columns error string built by `parseCsv`. -/
def columnsErrorMsg (asset : AssetType) : String :=
  "Columns for " ++ assetName asset ++
  " not found in the Google Sheet. Please ensure the following headers are present and correct in the published CSV: " ++
  String.intercalate ", "
    [(COLUMN_MAP asset).date, (COLUMN_MAP asset).invested,
     (COLUMN_MAP asset).price, (COLUMN_MAP asset).purchased] ++
  ". Empty columns between BTC and Gold data may cause this issue."

/-- The body of the `dataRows.map(...)` in `parseCsv`. -/
def parseRow (di ii pi pui : Int) (line : List Char) : ParsedRow :=
  let values := splitCommaTrim line
  { date := parseDate (getVal values di)
    invested := jsParseFloat (getVal values ii)
    assetPrice := jsParseFloat (getVal values pi)
    assetPurchased := jsParseFloat (getVal values pui) }

/-- The `.filter(...)` predicate of `parseCsv`:
`d.date && !isNaN(d.invested) && !isNaN(d.assetPrice) && !isNaN(d.assetPurchased) && d.invested > 0`. -/
def rowKeep (r : ParsedRow) : Bool :=
  jsDateTruthy r.date && r.invested.isSome && r.assetPrice.isSome &&
  r.assetPurchased.isSome && decide (0 < r.invested.getD 0)

/-- A kept row, with the (necessarily present) numeric fields extracted. -/
def toRaw (r : ParsedRow) : RawTransaction :=
  { date := r.date
    invested := r.invested.getD 0
    assetPrice := r.assetPrice.getD 0
    assetPurchased := r.assetPurchased.getD 0 }

/-- `parseCsv` from `services/dataService.ts`. -/
def parseCsv (csvText : String) (asset : AssetType) :
    List RawTransaction × Option String :=
  if (csvLines csvText).length < 2 then ([], some emptyCsvMsg)
  else if missingColumns csvText asset then ([], some (columnsErrorMsg asset))
  else
    let dataRows := (csvLines csvText).drop 1
    let data :=
      ((dataRows.map
        (parseRow (colIndex csvText (COLUMN_MAP asset).date)
          (colIndex csvText (COLUMN_MAP asset).invested)
          (colIndex csvText (COLUMN_MAP asset).price)
          (colIndex csvText (COLUMN_MAP asset).purchased))).filter rowKeep).map toRaw
    (data, none)

/- ----------------------------------------------------------------
   processData (services/dataService.ts)
   ---------------------------------------------------------------- -/

def sumInv (l : List RawTransaction) : ℚ := (l.map RawTransaction.invested).sum

def sumPur (l : List RawTransaction) : ℚ := (l.map RawTransaction.assetPurchased).sum

/-- The `data.map(point => ...)` of `processData`, with the mutable
accumulators `cumulativeInvested` and `cumulativeAmount` made explicit
parameters (`inv`, `amt`).  The chart date label `toLocaleDateString` is
modelled by the raw date string. -/
def chartFold (inv amt : ℚ) : List RawTransaction → List ChartDataPoint
  | [] => []
  | p :: rest =>
    { date := p.date.raw
      portValue := round2 ((amt + p.assetPurchased) * p.assetPrice)
      assetValue := round2 (inv + p.invested)
      cumulativeAmount := amt + p.assetPurchased } ::
    chartFold (inv + p.invested) (amt + p.assetPurchased) rest

/-- `processData` from `services/dataService.ts`.  After the map completes,
the accumulators hold the column totals, so the summary is computed from
`sumInv` / `sumPur`. -/
def processData (data : List RawTransaction) : DcaBundle :=
  match data with
  | [] => { chartData := [], summaryData := none, rawData := [], error := none }
  | first :: rest =>
    let chartData := chartFold 0 0 (first :: rest)
    let cumulativeInvested := sumInv (first :: rest)
    let cumulativeAmount := sumPur (first :: rest)
    let finalDataPoint := (first :: rest).getLast (List.cons_ne_nil first rest)
    let finalPortValue := cumulativeAmount * finalDataPoint.assetPrice
    let profit := finalPortValue - cumulativeInvested
    { chartData := chartData
      summaryData := some
        { profitPercentage := profit / cumulativeInvested * 100
          totalCapital := cumulativeInvested
          entryPrice := cumulativeInvested / cumulativeAmount
          startDate := first.date
          portValue := finalPortValue
          lastUpdated := finalDataPoint.date
          totalAmount := cumulativeAmount }
      rawData := first :: rest
      error := none }

def noRowsMsg (asset : AssetType) : String :=
  "No valid transaction rows found for " ++ assetName asset ++
  ". Please check the data in your Google Sheet."

/-- The pure per-asset bundle construction of the loop body of
`fetchAllDcaData`. -/
def buildBundle (csvText : String) (asset : AssetType) : DcaBundle :=
  match parseCsv csvText asset with
  | (_, some e) => { chartData := [], summaryData := none, rawData := [], error := some e }
  | (data, none) =>
    if data.isEmpty then
      { chartData := [], summaryData := none, rawData := [], error := some (noRowsMsg asset) }
    else processData data

/- ----------------------------------------------------------------
   fetchLivePrices rate derivation and App.tsx view logic
   ---------------------------------------------------------------- -/

/-- `thbUsdRate = btcPrices.thb.price / btcPrices.usd.price` from
`fetchLivePrices`. -/
def thbUsdRateOf (btcPrices : CurrencyPrices) : ℚ :=
  btcPrices.thb.price / btcPrices.usd.price

/-- `conversionRate` from `App.tsx`:
`(currency === 'USD' && thbUsdRate) ? (1 / thbUsdRate) : 1`.
A `null` rate and a rate of `0` are both falsy in JS. -/
def conversionRate (currency : Currency) (thbUsdRate : Option ℚ) : ℚ :=
  if currency = .USD then
    match thbUsdRate with
    | some r => if r = 0 then 1 else 1 / r
    | none => 1
  else 1

def GOLD_CONVERSION_GRAMS : ℚ := 1471 / 100

/-- `currentLivePrice` from `App.tsx`:
`livePrices?.[selectedAsset]?.[currency.toLowerCase()] ?? null`. -/
def currentLivePrice (livePrices : Option (AssetType → Option CurrencyPrices))
    (selectedAsset : AssetType) (currency : Currency) : Option PriceInfo :=
  match livePrices with
  | none => none
  | some m =>
    match m selectedAsset with
    | none => none
    | some cp =>
      match currency with
      | .THB => some cp.thb
      | .USD => some cp.usd

/-- `livePricePerGram` from `App.tsx`: for GOLD divide the live price by
`GOLD_CONVERSION_GRAMS`; for BTC pass it through. -/
def livePricePerGram (cur : Option PriceInfo) (selectedAsset : AssetType) :
    Option PriceInfo :=
  match cur with
  | none => none
  | some p =>
    if selectedAsset = .GOLD then
      some { p with price := p.price / GOLD_CONVERSION_GRAMS }
    else some p

/-- The `timeRange` slicing of `filteredChartData`: `slice(-7)`, `slice(-30)`
or the whole list. -/
def sliceRange (tr : TimeRange) (l : List ChartDataPoint) : List ChartDataPoint :=
  match tr with
  | .W => l.drop (l.length - 7)
  | .M => l.drop (l.length - 30)
  | .Y => l

/-- The `data.map(d => ...)` of `filteredChartData`.  The condition
`livePricePerGram && d.cumulativeAmount` tests truthiness: the live price must
be non-null and the cumulative amount non-zero. -/
def displayPoint (lp : Option PriceInfo) (rate : ℚ) (d : ChartDataPoint) :
    ChartDataPoint :=
  { d with
    portValue :=
      match lp with
      | some p => if d.cumulativeAmount ≠ 0 then d.cumulativeAmount * p.price
                  else d.portValue * rate
      | none => d.portValue * rate
    assetValue := d.assetValue * rate }

/-- `filteredChartData` from `App.tsx`.  (The `chartData` array itself is
always truthy in JS, so only the `error` field decides the early return; the
error strings produced by the service are never empty.) -/
def filteredChartData (currentAssetData : Option DcaBundle) (tr : TimeRange)
    (rate : ℚ) (lp : Option PriceInfo) : List ChartDataPoint :=
  match currentAssetData with
  | none => []
  | some b =>
    if b.error.isSome then []
    else (sliceRange tr b.chartData).map (displayPoint lp rate)

/-- `liveSummary` from `App.tsx`. -/
def liveSummary (currentAssetData : Option DcaBundle) (lp : Option PriceInfo)
    (rate : ℚ) : Option SummaryData :=
  match currentAssetData with
  | none => none
  | some b =>
    match b.summaryData with
    | none => none
    | some s =>
      let convertedTotalCapital := s.totalCapital * rate
      let convertedEntryPrice := s.entryPrice * rate
      match lp with
      | some p =>
        let livePortValue := s.totalAmount * p.price
        let profit := livePortValue - convertedTotalCapital
        some { s with
          portValue := livePortValue
          profitPercentage := profit / convertedTotalCapital * 100
          totalCapital := convertedTotalCapital
          entryPrice := convertedEntryPrice }
      | none =>
        some { s with
          portValue := s.portValue * rate
          profitPercentage := s.profitPercentage
          totalCapital := convertedTotalCapital
          entryPrice := convertedEntryPrice }

/-- The displayed invested amount of a transaction-history row
(`tx.invested * conversionRate` in `TransactionHistory`). -/
def txDisplayInvested (tx : RawTransaction) (rate : ℚ) : ℚ := tx.invested * rate

/-- The displayed unit price of a transaction-history row
(`tx.assetPrice * conversionRate` in `TransactionHistory`). -/
def txDisplayPrice (tx : RawTransaction) (rate : ℚ) : ℚ := tx.assetPrice * rate

/- ----------------------------------------------------------------
   General lemmas about the embedding
   ---------------------------------------------------------------- -/

theorem sumInv_nil : sumInv [] = 0 := rfl

theorem sumInv_cons (p : RawTransaction) (l : List RawTransaction) :
    sumInv (p :: l) = p.invested + sumInv l := by
  simp [sumInv]

theorem sumPur_nil : sumPur [] = 0 := rfl

theorem sumPur_cons (p : RawTransaction) (l : List RawTransaction) :
    sumPur (p :: l) = p.assetPurchased + sumPur l := by
  simp [sumPur]

theorem round2_mono {x y : ℚ} (h : x ≤ y) : round2 x ≤ round2 y := by
  unfold round2
  have hr : round (x * 100) ≤ round (y * 100) := by
    rw [round_eq, round_eq]
    exact Int.floor_mono (by linarith)
  have hr' : ((round (x * 100) : ℤ) : ℚ) ≤ ((round (y * 100) : ℤ) : ℚ) := by
    exact_mod_cast hr
  linarith

theorem chartFold_length (data : List RawTransaction) :
    ∀ (inv amt : ℚ), (chartFold inv amt data).length = data.length := by
  induction data with
  | nil => intro inv amt; rfl
  | cons p rest ih =>
    intro inv amt
    simp [chartFold, ih]

/-- The point at index `i` of the running fold: its fields are the prefix
sums through row `i` (offset by the initial accumulators), with the port
value priced at row `i`'s own recorded price. -/
theorem chartFold_getElem (data : List RawTransaction) :
    ∀ (inv amt : ℚ) (i : ℕ) (row : RawTransaction), data[i]? = some row →
      (chartFold inv amt data)[i]? = some
        { date := row.date.raw
          portValue := round2 ((amt + sumPur (data.take (i + 1))) * row.assetPrice)
          assetValue := round2 (inv + sumInv (data.take (i + 1)))
          cumulativeAmount := amt + sumPur (data.take (i + 1)) } := by
  induction data with
  | nil =>
    intro inv amt i row h
    simp at h
  | cons p rest ih =>
    intro inv amt i row h
    cases i with
    | zero =>
      simp at h
      subst h
      simp [chartFold, sumPur_cons, sumInv_cons, sumPur_nil, sumInv_nil]
    | succ n =>
      simp only [List.getElem?_cons_succ] at h
      have step := ih (inv + p.invested) (amt + p.assetPurchased) n row h
      simp [chartFold, step, List.take_succ_cons, sumPur_cons, sumInv_cons, add_assoc]

theorem processData_chartData (data : List RawTransaction) :
    (processData data).chartData = chartFold 0 0 data := by
  cases data with
  | nil => rfl
  | cons p rest => simp [processData]

theorem processData_error (data : List RawTransaction) :
    (processData data).error = none := by
  cases data with
  | nil => rfl
  | cons p rest => simp [processData]

/-- The summary fields of `processData` on a non-empty record list. -/
theorem processData_summary (data : List RawTransaction) (h : data ≠ []) :
    ∃ s, (processData data).summaryData = some s ∧
      s.totalCapital = sumInv data ∧
      s.totalAmount = sumPur data ∧
      s.entryPrice = sumInv data / sumPur data ∧
      s.portValue = sumPur data * (data.getLast h).assetPrice ∧
      s.profitPercentage = (s.portValue - s.totalCapital) / s.totalCapital * 100 := by
  cases data with
  | nil => exact absurd rfl h
  | cons p rest =>
    simp only [processData]
    exact ⟨_, rfl, rfl, rfl, rfl, rfl, rfl⟩

/-- The cumulative-invested series of the fold is non-decreasing as soon as
every invested amount is non-negative. -/
theorem chartFold_chain_assetValue :
    ∀ (data : List RawTransaction) (inv amt : ℚ),
      (∀ r ∈ data, 0 ≤ r.invested) →
      List.Chain' (fun a b => a.assetValue ≤ b.assetValue) (chartFold inv amt data)
  | [], _, _, _ => List.chain'_nil
  | [p], inv, amt, _ => by simp [chartFold]
  | p :: q :: rest, inv, amt, h => by
    have hq : (0 : ℚ) ≤ q.invested := h q (by simp)
    have ih := chartFold_chain_assetValue (q :: rest) (inv + p.invested)
      (amt + p.assetPurchased) (fun r hr => h r (List.mem_cons_of_mem p hr))
    rw [chartFold]
    refine List.chain'_cons'.mpr ⟨?_, ih⟩
    intro y hy
    rw [chartFold] at hy
    simp only [List.head?_cons, Option.mem_def, Option.some.injEq] at hy
    subst hy
    exact round2_mono (by linarith)

/-- The cumulative-units series of the fold is non-decreasing as soon as
every purchased amount is non-negative. -/
theorem chartFold_chain_cumulativeAmount :
    ∀ (data : List RawTransaction) (inv amt : ℚ),
      (∀ r ∈ data, 0 ≤ r.assetPurchased) →
      List.Chain' (fun a b => a.cumulativeAmount ≤ b.cumulativeAmount)
        (chartFold inv amt data)
  | [], _, _, _ => List.chain'_nil
  | [p], inv, amt, _ => by simp [chartFold]
  | p :: q :: rest, inv, amt, h => by
    have hq : (0 : ℚ) ≤ q.assetPurchased := h q (by simp)
    have ih := chartFold_chain_cumulativeAmount (q :: rest) (inv + p.invested)
      (amt + p.assetPurchased) (fun r hr => h r (List.mem_cons_of_mem p hr))
    rw [chartFold]
    refine List.chain'_cons'.mpr ⟨?_, ih⟩
    intro y hy
    rw [chartFold] at hy
    simp only [List.head?_cons, Option.mem_def, Option.some.injEq] at hy
    subst hy
    simp only
    linarith

/-- Every record that survives `parseCsv`'s row filter has a strictly
positive invested amount and all three numeric fields parsed. -/
theorem parseCsv_invested_pos (csvText : String) (asset : AssetType) :
    ∀ r ∈ (parseCsv csvText asset).1, 0 < r.invested := by
  intro r hr
  unfold parseCsv at hr
  by_cases h1 : (csvLines csvText).length < 2
  · simp [h1] at hr
  · by_cases h2 : missingColumns csvText asset
    · simp [h1, h2] at hr
    · simp only [h1, h2, if_false, if_neg, Bool.false_eq_true, ite_false] at hr
      simp only [List.mem_map, List.mem_filter] at hr
      obtain ⟨pr, ⟨_, hkeep⟩, rfl⟩ := hr
      simp only [rowKeep, jsDateTruthy, Bool.true_and, Bool.and_eq_true,
        decide_eq_true_eq] at hkeep
      exact hkeep.2

theorem displayPoint_none_one (d : ChartDataPoint) : displayPoint none 1 d = d := by
  simp [displayPoint]

/-- `liveSummary` with a live price present: live port value and recomputed
profit percentage. -/
theorem liveSummary_some (b : DcaBundle) (s : SummaryData) (p : PriceInfo)
    (rate : ℚ) (hs : b.summaryData = some s) :
    liveSummary (some b) (some p) rate = some
      { s with
        portValue := s.totalAmount * p.price
        profitPercentage :=
          (s.totalAmount * p.price - s.totalCapital * rate) / (s.totalCapital * rate) * 100
        totalCapital := s.totalCapital * rate
        entryPrice := s.entryPrice * rate } := by
  simp [liveSummary, hs]

/-- `liveSummary` with no live price: historical port value scaled by the
conversion rate, profit percentage unchanged. -/
theorem liveSummary_none (b : DcaBundle) (s : SummaryData) (rate : ℚ)
    (hs : b.summaryData = some s) :
    liveSummary (some b) none rate = some
      { s with
        portValue := s.portValue * rate
        totalCapital := s.totalCapital * rate
        entryPrice := s.entryPrice * rate } := by
  simp [liveSummary, hs]

theorem map_displayPoint_none_one (l : List ChartDataPoint) :
    l.map (displayPoint none 1) = l := by
  induction l with
  | nil => rfl
  | cons d t ih => simp [displayPoint_none_one, ih]

/- ----------------------------------------------------------------
   Concrete sample data
   ---------------------------------------------------------------- -/

def wdate1 : JsDate := { raw := "2024-01-01", valid := true }

def wdate2 : JsDate := { raw := "2024-02-01", valid := true }

def c1r1 : RawTransaction :=
  { date := wdate1, invested := 100, assetPrice := 50, assetPurchased := 2 }

def c1r2 : RawTransaction :=
  { date := wdate2, invested := 200, assetPrice := 60, assetPurchased := 3 }

def c1rows : List RawTransaction := [c1r1, c1r2]

def c3liveA : PriceInfo := { price := 100, change24h := 0, change24hPercentage := 0 }

def c3liveB : PriceInfo := { price := 200, change24h := 0, change24hPercentage := 0 }

def c6cur : PriceInfo := { price := 2942, change24h := 10, change24hPercentage := 1 }

def c6lps : Option (AssetType → Option CurrencyPrices) :=
  some (fun _ => some { thb := c3liveA, usd := c6cur })

def c6summary : SummaryData :=
  { profitPercentage := 0, totalCapital := 300, entryPrice := 60,
    startDate := wdate1, portValue := 300, lastUpdated := wdate2, totalAmount := 5 }

def c6bundle : DcaBundle :=
  { chartData := [], summaryData := some c6summary, rawData := c1rows, error := none }

def c7btc : CurrencyPrices :=
  { thb := { price := 3500000, change24h := 0, change24hPercentage := 0 }
    usd := { price := 100000, change24h := 0, change24hPercentage := 0 } }

set_option maxRecDepth 8000

/- ----------------------------------------------------------------
   C1
   ---------------------------------------------------------------- -/

/-- C1: for every non-empty record list, `processData` returns a chart list
of the same length in which the point at index `i` has `portValue` equal to
the running unit total through row `i` times row `i`'s own price, rounded
to 2 decimals, `assetValue` the running invested total rounded to 2
decimals, and `cumulativeAmount` the full-precision running unit total. -/
theorem c1_processData_chart (data : List RawTransaction) (h : data ≠ [])
    (i : ℕ) (row : RawTransaction) (hi : data[i]? = some row) :
    (processData data).chartData.length = data.length ∧
    ∃ pt, (processData data).chartData[i]? = some pt ∧
      pt.portValue = round2 (sumPur (data.take (i + 1)) * row.assetPrice) ∧
      pt.assetValue = round2 (sumInv (data.take (i + 1))) ∧
      pt.cumulativeAmount = sumPur (data.take (i + 1)) := by
  rw [processData_chartData]
  exact ⟨chartFold_length data 0 0,
    ⟨_, chartFold_getElem data 0 0 i row hi, by simp, by simp, by simp⟩⟩

/-- Witness for C1 at a concrete two-row history, index 1. -/
theorem c1_processData_chart_witness :
    (processData c1rows).chartData.length = c1rows.length ∧
    ∃ pt, (processData c1rows).chartData[1]? = some pt ∧
      pt.portValue = round2 (sumPur (c1rows.take 2) * c1r2.assetPrice) ∧
      pt.assetValue = round2 (sumInv (c1rows.take 2)) ∧
      pt.cumulativeAmount = sumPur (c1rows.take 2) :=
  c1_processData_chart c1rows (List.cons_ne_nil c1r1 [c1r2]) 1 c1r2 rfl

/- ----------------------------------------------------------------
   C3
   ---------------------------------------------------------------- -/

/-- C3 counterexample: with a two-point history, the FIRST displayed chart
point (not the last) takes different `portValue`s under two different live
price snapshots, so displayed historical points are not independent of the
live price: `filteredChartData` backfills the live price over past points. -/
theorem c3_counterexample :
    ((filteredChartData (some (processData c1rows)) TimeRange.Y 1 (some c3liveA)).map
        ChartDataPoint.portValue).head? = some 200 ∧
    ((filteredChartData (some (processData c1rows)) TimeRange.Y 1 (some c3liveB)).map
        ChartDataPoint.portValue).head? = some 400 ∧
    (processData c1rows).chartData.length = 2 ∧
    ¬ (200 : ℚ) = 400 := by
  refine ⟨?_, ?_, ?_, by norm_num⟩ <;>
    norm_num [filteredChartData, processData, chartFold, c1rows, c1r1, c1r2, c3liveA,
      c3liveB, sliceRange, displayPoint, sumInv, sumPur]

/-- C3 amended: `processData`'s stored chart values each point at that row's
own recorded price; but the displayed curve backfills: whenever a live price
is available, every displayed point with non-zero cumulative units is
re-valued at cumulative units times the live price, and only when no live
price is available does the displayed point show the stored historical value
(scaled by the conversion rate). -/
theorem c3_amended_display (data : List RawTransaction) (i : ℕ)
    (row : RawTransaction) (hi : data[i]? = some row) (rate : ℚ) (p : PriceInfo) :
    ∃ pt, (processData data).chartData[i]? = some pt ∧
      pt.portValue = round2 (sumPur (data.take (i + 1)) * row.assetPrice) ∧
      pt.cumulativeAmount = sumPur (data.take (i + 1)) ∧
      (filteredChartData (some (processData data)) TimeRange.Y rate (some p))[i]? =
        some { pt with
          portValue := if pt.cumulativeAmount ≠ 0 then pt.cumulativeAmount * p.price
                       else pt.portValue * rate
          assetValue := pt.assetValue * rate } ∧
      (filteredChartData (some (processData data)) TimeRange.Y rate none)[i]? =
        some { pt with
          portValue := pt.portValue * rate
          assetValue := pt.assetValue * rate } := by
  have hget := chartFold_getElem data 0 0 i row hi
  simp only [zero_add] at hget
  have hchart : (processData data).chartData[i]? = some
      { date := row.date.raw
        portValue := round2 (sumPur (data.take (i + 1)) * row.assetPrice)
        assetValue := round2 (sumInv (data.take (i + 1)))
        cumulativeAmount := sumPur (data.take (i + 1)) } := by
    rw [processData_chartData]; exact hget
  refine ⟨_, hchart, rfl, rfl, ?_, ?_⟩
  · simp [filteredChartData, processData_error, sliceRange, List.getElem?_map,
      processData_chartData, hget, displayPoint]
  · simp [filteredChartData, processData_error, sliceRange, List.getElem?_map,
      processData_chartData, hget, displayPoint]

/-- Witness for C3 amended at a concrete history, index 0. -/
theorem c3_amended_display_witness :
    ∃ pt, (processData c1rows).chartData[0]? = some pt ∧
      pt.portValue = round2 (sumPur (c1rows.take 1) * c1r1.assetPrice) ∧
      pt.cumulativeAmount = sumPur (c1rows.take 1) ∧
      (filteredChartData (some (processData c1rows)) TimeRange.Y 1 (some c3liveA))[0]? =
        some { pt with
          portValue := if pt.cumulativeAmount ≠ 0 then pt.cumulativeAmount * c3liveA.price
                       else pt.portValue * 1
          assetValue := pt.assetValue * 1 } ∧
      (filteredChartData (some (processData c1rows)) TimeRange.Y 1 none)[0]? =
        some { pt with
          portValue := pt.portValue * 1
          assetValue := pt.assetValue * 1 } :=
  c3_amended_display c1rows 0 c1r1 rfl 1 c3liveA

/- ----------------------------------------------------------------
   C4
   ---------------------------------------------------------------- -/

/-- C4 amended: for every non-empty record list whose unit total is
non-zero, the summary's entry price is total invested capital divided by
total units (a genuine division: multiplying back recovers the capital).
The zero-unit-total case is NOT excluded by the upstream filter, which only
requires invested to be positive (see the C4 counterexample). -/
theorem c4_amended_entry_price (data : List RawTransaction) (h : data ≠ [])
    (hu : sumPur data ≠ 0) :
    ∃ s, (processData data).summaryData = some s ∧
      s.totalCapital = sumInv data ∧
      s.totalAmount = sumPur data ∧
      s.entryPrice = s.totalCapital / s.totalAmount ∧
      s.entryPrice * sumPur data = sumInv data := by
  obtain ⟨s, hs, h1, h2, h3, _, _⟩ := processData_summary data h
  refine ⟨s, hs, h1, h2, by rw [h3, h1, h2], ?_⟩
  rw [h3]
  exact div_mul_cancel₀ _ hu

/-- Witness for C4 amended at a concrete two-row history. -/
theorem c4_amended_entry_price_witness :
    ∃ s, (processData c1rows).summaryData = some s ∧
      s.totalCapital = sumInv c1rows ∧
      s.totalAmount = sumPur c1rows ∧
      s.entryPrice = s.totalCapital / s.totalAmount ∧
      s.entryPrice * sumPur c1rows = sumInv c1rows :=
  c4_amended_entry_price c1rows (List.cons_ne_nil c1r1 [c1r2])
    (by norm_num [sumPur, c1rows, c1r1, c1r2])

/- ----------------------------------------------------------------
   C5
   ---------------------------------------------------------------- -/

def c5p1 : ParsedRow :=
  { date := wdate1, invested := some 100, assetPrice := some 50,
    assetPurchased := some 2 }

def c5p2 : ParsedRow :=
  { date := wdate2, invested := some 100, assetPrice := some 50,
    assetPurchased := some (-1) }

/-- C5 counterexample: two rows that both pass `parseCsv`'s row filter (the
filter only demands parsed numerics and invested strictly positive, nothing
about the sign of the purchased units), yet the cumulative-units series of
`processData` is `[2, 1]`, which is strictly decreasing. -/
theorem c5_counterexample :
    rowKeep c5p1 = true ∧ rowKeep c5p2 = true ∧
    ((processData ([c5p1, c5p2].filter rowKeep |>.map toRaw)).chartData.map
        ChartDataPoint.cumulativeAmount) = [2, 1] ∧
    ¬ ((2 : ℚ) ≤ 1) := by
  have k1 : rowKeep c5p1 = true := by norm_num [rowKeep, jsDateTruthy, c5p1]
  have k2 : rowKeep c5p2 = true := by norm_num [rowKeep, jsDateTruthy, c5p2]
  refine ⟨k1, k2, ?_, by norm_num⟩
  simp only [List.filter, k1, k2, List.map]
  norm_num [processData, chartFold, toRaw, c5p1, c5p2]

/-- C5 amended: for every record set produced by `parseCsv` (hence with
every invested amount strictly positive), the cumulative-invested series is
monotonically non-decreasing — unconditionally; the cumulative-units series
is monotonically non-decreasing provided additionally every purchased
amount is non-negative, a condition the row filter does not enforce. -/
theorem c5_amended_monotone (csvText : String) (asset : AssetType) :
    List.Chain' (fun a b => a ≤ b)
      ((processData (parseCsv csvText asset).1).chartData.map
        ChartDataPoint.assetValue) ∧
    ((∀ r ∈ (parseCsv csvText asset).1, 0 ≤ r.assetPurchased) →
      List.Chain' (fun a b => a ≤ b)
        ((processData (parseCsv csvText asset).1).chartData.map
          ChartDataPoint.cumulativeAmount)) := by
  constructor
  · rw [processData_chartData, List.chain'_map]
    exact chartFold_chain_assetValue (parseCsv csvText asset).1 0 0
      (fun r hr => le_of_lt (parseCsv_invested_pos csvText asset r hr))
  · intro hpur
    rw [processData_chartData, List.chain'_map]
    exact chartFold_chain_cumulativeAmount (parseCsv csvText asset).1 0 0 hpur

/- ----------------------------------------------------------------
   C6
   ---------------------------------------------------------------- -/

/-- C6: when a live price is available for the selected asset and currency
(and a summary exists), the blended summary values the portfolio at total
units times the per-unit live price, and recomputes the profit percentage
against that live value and the (converted) total capital; for GOLD the
live price is first divided by the constant 14.71 to obtain a per-gram
price, while for BTC it is used unchanged. -/
theorem c6_live_blending (livePrices : Option (AssetType → Option CurrencyPrices))
    (asset : AssetType) (ccy : Currency) (cur : PriceInfo) (b : DcaBundle)
    (s : SummaryData) (rate : ℚ)
    (hcur : currentLivePrice livePrices asset ccy = some cur)
    (hs : b.summaryData = some s) :
    ∃ p out,
      livePricePerGram (currentLivePrice livePrices asset ccy) asset = some p ∧
      liveSummary (some b) (livePricePerGram (currentLivePrice livePrices asset ccy) asset)
        rate = some out ∧
      (asset = AssetType.GOLD → p.price = cur.price / GOLD_CONVERSION_GRAMS) ∧
      (asset = AssetType.BTC → p.price = cur.price) ∧
      out.portValue = s.totalAmount * p.price ∧
      out.totalCapital = s.totalCapital * rate ∧
      out.profitPercentage = (out.portValue - out.totalCapital) / out.totalCapital * 100 := by
  rw [hcur]
  cases asset with
  | BTC =>
    have hp : livePricePerGram (some cur) AssetType.BTC = some cur := by
      simp [livePricePerGram]
    rw [hp]
    exact ⟨cur, _, rfl, liveSummary_some b s cur rate hs,
      fun hGold => absurd hGold (by simp), fun _ => rfl, rfl, rfl, rfl⟩
  | GOLD =>
    have hp : livePricePerGram (some cur) AssetType.GOLD =
        some { cur with price := cur.price / GOLD_CONVERSION_GRAMS } := by
      simp [livePricePerGram]
    rw [hp]
    exact ⟨{ cur with price := cur.price / GOLD_CONVERSION_GRAMS }, _, rfl,
      liveSummary_some b s { cur with price := cur.price / GOLD_CONVERSION_GRAMS } rate hs,
      fun _ => rfl, fun hBtc => absurd hBtc (by simp), rfl, rfl, rfl⟩

/-- Witness for C6 with a concrete GOLD bundle and live price. -/
theorem c6_live_blending_witness :
    ∃ p out,
      livePricePerGram (currentLivePrice c6lps AssetType.GOLD Currency.USD)
        AssetType.GOLD = some p ∧
      liveSummary (some c6bundle)
        (livePricePerGram (currentLivePrice c6lps AssetType.GOLD Currency.USD)
          AssetType.GOLD) 2 = some out ∧
      (AssetType.GOLD = AssetType.GOLD → p.price = c6cur.price / GOLD_CONVERSION_GRAMS) ∧
      (AssetType.GOLD = AssetType.BTC → p.price = c6cur.price) ∧
      out.portValue = c6summary.totalAmount * p.price ∧
      out.totalCapital = c6summary.totalCapital * 2 ∧
      out.profitPercentage = (out.portValue - out.totalCapital) / out.totalCapital * 100 :=
  c6_live_blending c6lps AssetType.GOLD Currency.USD c6cur c6bundle c6summary 2 rfl rfl

/- ----------------------------------------------------------------
   C7
   ---------------------------------------------------------------- -/

/-- C7: the THB/USD rate is the ratio of the BTC live price in THB to the
BTC live price in USD, the display rate for USD is its reciprocal, and
conversion is a pure linear scale: converting a value with the USD display
rate and back with the (non-zero) THB/USD rate returns the value exactly
over rational arithmetic. -/
theorem c7_conversion_roundtrip (v r : ℚ) (btc : CurrencyPrices) (hr : r ≠ 0) :
    thbUsdRateOf btc = btc.thb.price / btc.usd.price ∧
    conversionRate Currency.USD (some r) = 1 / r ∧
    v * conversionRate Currency.USD (some r) * r = v := by
  have hc : conversionRate Currency.USD (some r) = 1 / r := by
    simp [conversionRate, hr]
  refine ⟨rfl, hc, ?_⟩
  rw [hc]
  field_simp

/-- Witness for C7 at concrete values. -/
theorem c7_conversion_roundtrip_witness :
    thbUsdRateOf c7btc = c7btc.thb.price / c7btc.usd.price ∧
    conversionRate Currency.USD (some 35) = 1 / 35 ∧
    (7 : ℚ) * conversionRate Currency.USD (some 35) * 35 = 7 :=
  c7_conversion_roundtrip 7 35 c7btc (by norm_num)

/- ----------------------------------------------------------------
   C8
   ---------------------------------------------------------------- -/

/-- C8 counterexample: the single-line CSV `"Date"` has a header row missing
the required `BTC Purchased` column, yet `parseCsv` reports the generic
empty-CSV error, which names neither the missing column nor the asset and
is not the structural missing-columns message. -/
theorem c8_counterexample :
    missingColumns "Date" AssetType.BTC = true ∧
    parseCsv "Date" AssetType.BTC = ([], some emptyCsvMsg) ∧
    ¬ (COLUMN_MAP AssetType.BTC).purchased.data <:+: emptyCsvMsg.data ∧
    emptyCsvMsg ≠ columnsErrorMsg AssetType.BTC := by decide

/-- C8 amended: for every CSV input with at least two lines whose header
row fails to resolve all four required columns of the asset, `parseCsv`
fails with the structural error message — which contains the asset name and
every expected header name — and the resulting bundle has no chart points,
no raw transactions and no summary. -/
theorem c8_missing_columns (csvText : String) (asset : AssetType)
    (hlen : ¬ (csvLines csvText).length < 2)
    (hmiss : missingColumns csvText asset = true) :
    parseCsv csvText asset = ([], some (columnsErrorMsg asset)) ∧
    buildBundle csvText asset =
      { chartData := [], summaryData := none, rawData := [],
        error := some (columnsErrorMsg asset) } ∧
    (assetName asset).data <:+: (columnsErrorMsg asset).data ∧
    (COLUMN_MAP asset).date.data <:+: (columnsErrorMsg asset).data ∧
    (COLUMN_MAP asset).invested.data <:+: (columnsErrorMsg asset).data ∧
    (COLUMN_MAP asset).price.data <:+: (columnsErrorMsg asset).data ∧
    (COLUMN_MAP asset).purchased.data <:+: (columnsErrorMsg asset).data := by
  have hp : parseCsv csvText asset = ([], some (columnsErrorMsg asset)) := by
    simp [parseCsv, hlen, hmiss]
  refine ⟨hp, by simp [buildBundle, hp], ?_, ?_, ?_, ?_, ?_⟩ <;> cases asset <;> decide

def csvC : String := "Date,Invested (THB),BTC Price (THB)\nx,1,2"

/-- Witness for C8 amended: a two-line CSV whose header lacks the
`BTC Purchased` column. -/
theorem c8_missing_columns_witness :
    parseCsv csvC AssetType.BTC = ([], some (columnsErrorMsg AssetType.BTC)) ∧
    buildBundle csvC AssetType.BTC =
      { chartData := [], summaryData := none, rawData := [],
        error := some (columnsErrorMsg AssetType.BTC) } ∧
    (assetName AssetType.BTC).data <:+: (columnsErrorMsg AssetType.BTC).data ∧
    (COLUMN_MAP AssetType.BTC).date.data <:+: (columnsErrorMsg AssetType.BTC).data ∧
    (COLUMN_MAP AssetType.BTC).invested.data <:+: (columnsErrorMsg AssetType.BTC).data ∧
    (COLUMN_MAP AssetType.BTC).price.data <:+: (columnsErrorMsg AssetType.BTC).data ∧
    (COLUMN_MAP AssetType.BTC).purchased.data <:+: (columnsErrorMsg AssetType.BTC).data :=
  c8_missing_columns csvC AssetType.BTC (by decide) (by decide)

/- ----------------------------------------------------------------
   C9
   ---------------------------------------------------------------- -/

/-- C9: with no live price, the summary is still produced from the
historical data: port value is the last row's valuation (total units times
the last recorded price) scaled by the conversion rate, and the profit
percentage is the historically derived one, unchanged. -/
theorem c9_fallback_summary (data : List RawTransaction) (h : data ≠ [])
    (rate : ℚ) :
    ∃ s out, (processData data).summaryData = some s ∧
      liveSummary (some (processData data)) none rate = some out ∧
      out.portValue = sumPur data * (data.getLast h).assetPrice * rate ∧
      out.profitPercentage = s.profitPercentage ∧
      out.totalCapital = s.totalCapital * rate := by
  obtain ⟨s, hs, _, _, _, h4, _⟩ := processData_summary data h
  refine ⟨s, _, hs, liveSummary_none _ s rate hs, ?_, rfl, rfl⟩
  show s.portValue * rate = sumPur data * (data.getLast h).assetPrice * rate
  rw [h4]

/-- Witness for C9 at a concrete two-row history and rate 3. -/
theorem c9_fallback_summary_witness :
    ∃ s out, (processData c1rows).summaryData = some s ∧
      liveSummary (some (processData c1rows)) none 3 = some out ∧
      out.portValue =
        sumPur c1rows * (c1rows.getLast (List.cons_ne_nil c1r1 [c1r2])).assetPrice * 3 ∧
      out.profitPercentage = s.profitPercentage ∧
      out.totalCapital = s.totalCapital * 3 :=
  c9_fallback_summary c1rows (List.cons_ne_nil c1r1 [c1r2]) 3

/- ----------------------------------------------------------------
   C10
   ---------------------------------------------------------------- -/

/-- C10: with the THB/USD rate never obtained (null) and USD selected, the
applied conversion rate is exactly 1 (and, the live prices being equally
absent, every monetary figure — summary capital, entry price, port value,
both chart series, and transaction-history rows — is displayed at its
unconverted base-currency magnitude). -/
theorem c10_null_rate_identity (asset : AssetType) (b : DcaBundle)
    (s : SummaryData) (tr : TimeRange) (tx : RawTransaction)
    (hs : b.summaryData = some s) (hb : b.error = none) :
    conversionRate Currency.USD none = 1 ∧
    livePricePerGram (currentLivePrice none asset Currency.USD) asset = none ∧
    liveSummary (some b) (livePricePerGram (currentLivePrice none asset Currency.USD) asset)
      (conversionRate Currency.USD none) = some s ∧
    filteredChartData (some b) tr (conversionRate Currency.USD none)
      (livePricePerGram (currentLivePrice none asset Currency.USD) asset) =
      sliceRange tr b.chartData ∧
    txDisplayInvested tx (conversionRate Currency.USD none) = tx.invested ∧
    txDisplayPrice tx (conversionRate Currency.USD none) = tx.assetPrice := by
  have hrate : conversionRate Currency.USD none = 1 := rfl
  have hlp : livePricePerGram (currentLivePrice none asset Currency.USD) asset = none := rfl
  rw [hrate, hlp]
  refine ⟨rfl, rfl, ?_, ?_, ?_, ?_⟩
  · rw [liveSummary_none b s 1 hs]
    simp
  · simp [filteredChartData, hb, map_displayPoint_none_one]
  · simp [txDisplayInvested]
  · simp [txDisplayPrice]

/-- Witness for C10 at a concrete bundle, time range and transaction. -/
theorem c10_null_rate_identity_witness :
    conversionRate Currency.USD none = 1 ∧
    livePricePerGram (currentLivePrice none AssetType.BTC Currency.USD) AssetType.BTC = none ∧
    liveSummary (some c6bundle)
      (livePricePerGram (currentLivePrice none AssetType.BTC Currency.USD) AssetType.BTC)
      (conversionRate Currency.USD none) = some c6summary ∧
    filteredChartData (some c6bundle) TimeRange.W (conversionRate Currency.USD none)
      (livePricePerGram (currentLivePrice none AssetType.BTC Currency.USD) AssetType.BTC) =
      sliceRange TimeRange.W c6bundle.chartData ∧
    txDisplayInvested c1r1 (conversionRate Currency.USD none) = c1r1.invested ∧
    txDisplayPrice c1r1 (conversionRate Currency.USD none) = c1r1.assetPrice :=
  c10_null_rate_identity AssetType.BTC c6bundle c6summary TimeRange.W c1r1 rfl rfl

/- ----------------------------------------------------------------
   Concrete runs of parseCsv (C2, C4, C5 witnesses)
   ---------------------------------------------------------------- -/

/-- A CSV with a well-formed header and one data row whose date cell is the
unparseable string `notadate` while all numeric cells parse and invested is
positive. -/
def csvA : String :=
  "Date,Invested (THB),BTC Price (THB),BTC Purchased\nnotadate,100,50000,0.002"

/-- The record `parseCsv` produces for `csvA`'s data row: kept despite its
Invalid Date. -/
def rowA : RawTransaction :=
  { date := { raw := "notadate", valid := false }
    invested := 100, assetPrice := 50000, assetPurchased := 1 / 500 }

set_option maxHeartbeats 2000000

theorem parseCsv_csvA : parseCsv csvA AssetType.BTC = ([rowA], none) := by
  norm_num +decide [parseCsv, csvLines, splitOnChar, splitOnCharAux, trimChars, headerCells,
    splitCommaTrim, colIndex, jsIndexOf, missingColumns, COLUMN_MAP, parseRow, getVal,
    parseDate, jsParseFloat, parseFloatChars, takeDigits, applyExponent, isoDateValid,
    rowKeep, toRaw, jsDateTruthy, csvA, rowA,
    (by decide : Char.toNat '0' = 48), (by decide : Char.toNat '1' = 49),
    (by decide : Char.toNat '2' = 50), (by decide : Char.toNat '5' = 53)]

/-- A CSV with a well-formed header and one valid data row whose purchased
units are `0`. -/
def csvB : String :=
  "Date,Invested (THB),BTC Price (THB),BTC Purchased\n2024-01-01,100,50000,0"

/-- The record `parseCsv` produces for `csvB`'s data row: a kept row with
zero purchased units. -/
def rowB : RawTransaction :=
  { date := { raw := "2024-01-01", valid := true }
    invested := 100, assetPrice := 50000, assetPurchased := 0 }

theorem parseCsv_csvB : parseCsv csvB AssetType.BTC = ([rowB], none) := by
  norm_num +decide [parseCsv, csvLines, splitOnChar, splitOnCharAux, trimChars, headerCells,
    splitCommaTrim, colIndex, jsIndexOf, missingColumns, COLUMN_MAP, parseRow, getVal,
    parseDate, jsParseFloat, parseFloatChars, takeDigits, applyExponent, isoDateValid,
    rowKeep, toRaw, jsDateTruthy, csvB, rowB,
    (by decide : Char.toNat '0' = 48), (by decide : Char.toNat '1' = 49),
    (by decide : Char.toNat '2' = 50), (by decide : Char.toNat '4' = 52),
    (by decide : Char.toNat '5' = 53)]

/- ----------------------------------------------------------------
   C2
   ---------------------------------------------------------------- -/

/-- C2 (code bug): the row filter of `parseCsv` never drops a row for an
unparseable date — a JS `Date` object is truthy even when it is an Invalid
Date, so the `d.date &&` conjunct of the filter is vacuous and the filter
reduces to the three numeric-parse checks plus positivity of invested.  On
`csvA`, whose single data row has the unparseable date `notadate` (valid
positive numerics), the row is kept in the filtered record set with an
invalid date, where the claim requires it to be dropped. -/
theorem c2_invalid_date_row_kept :
    parseCsv csvA AssetType.BTC = ([rowA], none) ∧
    rowA.date.valid = false ∧
    (∀ pr : ParsedRow,
      rowKeep pr = (pr.invested.isSome && pr.assetPrice.isSome &&
        pr.assetPurchased.isSome && decide (0 < pr.invested.getD 0))) := by
  refine ⟨parseCsv_csvA, rfl, ?_⟩
  intro pr
  simp [rowKeep, jsDateTruthy, Bool.and_assoc]

/- ----------------------------------------------------------------
   C4 counterexample
   ---------------------------------------------------------------- -/

/-- C4 counterexample: the row of `csvB` (invested 100, purchased 0) passes
the upstream filter, so a non-empty filtered record set with a unit total of
exactly zero is reachable — the division-by-zero case of the entry price is
not excluded by non-emptiness. -/
theorem c4_counterexample :
    parseCsv csvB AssetType.BTC = ([rowB], none) ∧
    (parseCsv csvB AssetType.BTC).1 ≠ [] ∧
    sumPur (parseCsv csvB AssetType.BTC).1 = 0 := by
  refine ⟨parseCsv_csvB, ?_, ?_⟩ <;> rw [parseCsv_csvB]
  · simp
  · norm_num [sumPur, rowB]

/-- Witness for C5 amended: the filtered output of `csvA` (one row,
purchased `1/500 ≥ 0`), with the units-series hypothesis discharged there. -/
theorem c5_amended_monotone_witness :
    List.Chain' (fun a b => a ≤ b)
      ((processData (parseCsv csvA AssetType.BTC).1).chartData.map
        ChartDataPoint.assetValue) ∧
    List.Chain' (fun a b => a ≤ b)
      ((processData (parseCsv csvA AssetType.BTC).1).chartData.map
        ChartDataPoint.cumulativeAmount) :=
  ⟨(c5_amended_monotone csvA AssetType.BTC).1,
    (c5_amended_monotone csvA AssetType.BTC).2 (by
      rw [parseCsv_csvA]
      intro r hr
      simp only [List.mem_singleton] at hr
      subst hr
      norm_num [rowA])⟩

end Dca
